import Mathlib

/-!
# Verification of the tide-openssl TLS listener

A shallow embedding of `src/tls_listener.rs` (crate `tide-openssl`): the
listener state machine (`configure`, `connect`, `bind`), the accept loop
(`accept`), the per-connection handler (`handle_tls`) and the transient-error
classifier (`is_transient_error`), together with theorems settling the spec
claims about them.

External effects (OpenSSL context construction, file loading, socket binding,
socket-option syscalls, TLS handshakes, HTTP parsing) are modelled by
environments that fix the outcome of each call, and observable side effects
(acceptor builds, socket binds, log lines, backoff sleeps, task spawns) are
recorded in an explicit event trace.
-/

namespace TideOpenssl

/-- Embedding of `std::io::ErrorKind` (the kinds this crate inspects or
constructs, plus `other` for everything else). -/
inductive IoErrorKind
  | connectionRefused
  | connectionAborted
  | connectionReset
  | invalidInput
  | other
deriving DecidableEq, Repr

/-- Embedding of `std::io::Error`: a kind plus the display message of the
wrapped error. -/
structure IoError where
  kind : IoErrorKind
  msg : String
deriving DecidableEq, Repr

/-- `is_transient_error` from `src/tls_listener.rs` lines 277-283: an I/O
error is transient iff its kind is connection-refused, connection-aborted or
connection-reset. -/
def is_transient_error (e : IoError) : Bool :=
  match e.kind with
  | .connectionRefused => true
  | .connectionAborted => true
  | .connectionReset => true
  | _ => false

/-- Embedding of `openssl::ssl::SslAcceptor` after `build()`: the material it
was built from plus a build identity (each `acceptor.build()` call produces a
distinct shared handle; `buildId` records which construction produced it). -/
structure SslAcceptor where
  cert : String
  key : String
  buildId : Nat
deriving DecidableEq, Repr

/-- Modelled from the spec: `TlsListenerConfig` (its file
`src/tls_listener_config.rs` is not under `src/`; spec section 3 gives the
`PendingFiles`/`Acceptor` variants and section 4.1 the never-supplied state).
`src/tls_listener.rs` pattern-matches the `Paths { cert, key }` variant and
treats every other variant uniformly via `_`. -/
inductive TlsListenerConfig
  | unconfigured
  | paths (cert : String) (key : String)
  | acceptor (acc : SslAcceptor)
deriving DecidableEq, Repr

/-- Modelled from the spec: `TcpConnection` (its file
`src/tcp_connection.rs` is not under `src/`; spec section 3: variants
`Unbound(set of address specs)` and `Bound(live listening socket handle)`).
`src/tls_listener.rs` pattern-matches `Addrs` and `Connected`; a bound socket
is modelled as a numeric handle. -/
inductive TcpConnection
  | addrs (specs : List String)
  | connected (sock : Nat)
deriving DecidableEq, Repr

/-- Embedding of `http_types::Response` as produced by `app.respond`: only its
identity matters to the listener, kept abstract as a status code. -/
structure Response where
  status : Nat
deriving DecidableEq, Repr

/-- Embedding of an `http_types::Request` as seen by the per-request callback
in `handle_tls`: its URL scheme (with `schemeSettable` recording whether
`url.set_scheme("https")` succeeds on this URL), the URL display string, and
the local/peer address annotations. -/
structure Request where
  scheme : String
  schemeSettable : Bool
  url : String
  localAddr : Option String
  peerAddr : Option String
deriving DecidableEq, Repr

/-- Embedding of `tide::Server<State>`: the application dispatcher, a function
from requests to responses (`app.respond`). -/
structure Server where
  respond : Request → Response

/-- Events observable from the listener: acceptor constructions, socket binds,
log lines, backoff sleeps, and spawned connection-handler tasks (a spawn
carries the trace of the handler task it launched). -/
inductive HEvent
  | logError (msg : String)
  | handshakeAttempt
deriving DecidableEq, Repr

/-- Trace events of the listener itself (accept loop, configure, connect). -/
inductive Event
  | buildAcceptor (id : Nat)
  | bindSocket (sock : Nat)
  | logError (msg : String)
  | sleepMs (ms : Nat)
  | spawn (handler : List HEvent)
deriving DecidableEq, Repr

/-- The `TlsListener<State>` struct from `src/tls_listener.rs` lines 19-26. -/
structure TlsListener where
  connection : TcpConnection
  config : TlsListenerConfig
  acceptor : Option SslAcceptor
  server : Option Server
  tcp_nodelay : Option Bool
  tcp_ttl : Option Nat

/-- Environment fixing the outcomes of the OpenSSL calls made by `configure`:
whether `SslAcceptor::mozilla_modern_v5` succeeds, the error message (if any)
of `set_private_key_file` per key path and of `set_certificate_chain_file`
per cert path, and the identity the next `build()` call will produce. -/
structure TlsEnv where
  baseOk : Bool
  keyErr : String → Option String
  certErr : String → Option String
  nextId : Nat

/-- Outcome of `TlsListener::configure` (`&mut self` receiver made explicit):
the advanced environment, the updated listener, the `io::Result<()>`, and the
event trace. -/
structure ConfigureOutcome where
  env : TlsEnv
  listener : TlsListener
  result : Except IoError Unit
  trace : List Event

/-- `TlsListener::configure` from `src/tls_listener.rs` lines 88-108.
On a `Paths` config it builds a fresh acceptor from the key and cert files
(failing with an `Other`-kind I/O error if context construction or either
file load fails, before touching `self.acceptor`) and stores it in
`self.acceptor`; the config field itself is never modified. Any other config
variant fails with `InvalidInput`, "need exactly one of cert + key". -/
def TlsListener.configure (env : TlsEnv) (l : TlsListener) : ConfigureOutcome :=
  match l.config with
  | .paths cert key =>
    if env.baseOk then
      match env.keyErr key with
      | some m => ⟨env, l, .error ⟨.other, m⟩, []⟩
      | none =>
        match env.certErr cert with
        | some m => ⟨env, l, .error ⟨.other, m⟩, []⟩
        | none =>
          ⟨{ env with nextId := env.nextId + 1 },
           { l with acceptor := some ⟨cert, key, env.nextId⟩ },
           .ok (), [.buildAcceptor env.nextId]⟩
    else ⟨env, l, .error ⟨.other, "mozilla_modern_v5 failed"⟩, []⟩
  | _ => ⟨env, l, .error ⟨.invalidInput, "need exactly one of cert + key"⟩, []⟩

/-- `TlsListener::tcp` from `src/tls_listener.rs` lines 146-151. -/
def TlsListener.tcp (l : TlsListener) : Option Nat :=
  match l.connection with
  | .connected t => some t
  | _ => none

/-- Environment fixing the outcome of `TcpListener::bind` on an address list. -/
structure NetEnv where
  bindResult : List String → Except IoError Nat

/-- Outcome of `TlsListener::connect`. -/
structure ConnectOutcome where
  listener : TlsListener
  result : Except IoError Unit
  trace : List Event

/-- `TlsListener::connect` from `src/tls_listener.rs` lines 153-159: bind only
when the connection is still `Addrs`, transitioning it to `Connected`; a
`Connected` connection is left untouched and the call succeeds. -/
def TlsListener.connect (env : NetEnv) (l : TlsListener) : ConnectOutcome :=
  match l.connection with
  | .addrs specs =>
    match env.bindResult specs with
    | .error e => ⟨l, .error e, []⟩
    | .ok t => ⟨{ l with connection := .connected t }, .ok (), [.bindSocket t]⟩
  | .connected _ => ⟨l, .ok (), []⟩

/-- Outcome of `Listener::bind`. -/
structure BindOutcome where
  env : TlsEnv
  listener : TlsListener
  result : Except IoError Unit

/-- `Listener::bind` from `src/tls_listener.rs` lines 220-225: run
`configure`, then `connect`, each propagating its error with `?`, then store
the server. -/
def TlsListener.bind (tenv : TlsEnv) (nenv : NetEnv) (server : Server)
    (l : TlsListener) : BindOutcome :=
  let c := l.configure tenv
  match c.result with
  | .error e => ⟨c.env, c.listener, .error e⟩
  | .ok _ =>
    let c2 := c.listener.connect nenv
    match c2.result with
    | .error e => ⟨c.env, c2.listener, .error e⟩
    | .ok _ => ⟨c.env, { c2.listener with server := some server }, .ok ()⟩

/-- Data fixing the outcome of every external call made by the spawned
connection-handler task on one accepted `TcpStream`: the address snapshots
(`local_addr().ok()` / `peer_addr().ok()`), the error of
`Ssl::new(..).and_then(SslStream::new)` if that construction fails, the error
of the TLS `accept` handshake if it fails, and — on handshake success — the
requests the HTTP codec parses plus the codec-level error `async_h1::accept`
ends with, if any. -/
structure HandshakeData where
  sslNewErr : Option String
  handshakeErr : Option String
  requests : List Request
  codecErr : Option String
deriving DecidableEq, Repr

/-- An accepted `TcpStream` together with the outcomes of the calls the
listener makes on it: the errors (if any) of `set_nodelay` and `set_ttl`, and
the handshake-side data consumed by the spawned handler. -/
structure AcceptedStream where
  localAddr : Option String
  peerAddr : Option String
  setNodelayErr : Option IoError
  setTtlErr : Option IoError
  hs : HandshakeData
deriving DecidableEq, Repr

/-- The per-request callback passed to `async_h1::accept` in `handle_tls`
(`src/tls_listener.rs` lines 183-191): set the URL scheme to https (logging,
not failing, when `set_scheme` errors), attach the captured local and peer
addresses, and return the application dispatcher's response. Returns the
response together with the handler events the callback logged. -/
def requestCallback (app : Server) (localAddr peerAddr : Option String)
    (req : Request) : Response × List HEvent :=
  let step1 :=
    if req.schemeSettable then ({ req with scheme := "https" }, ([] : List HEvent))
    else (req, [HEvent.logError ("unable to set https scheme on url: " ++ req.url)])
  let req2 := { step1.1 with localAddr := localAddr, peerAddr := peerAddr }
  (app.respond req2, step1.2)

/-- The body of the task spawned by `handle_tls` (`src/tls_listener.rs` lines
162-202), as the trace of handler events it produces: snapshot addresses, try
to construct the SSL stream (log "ssl error" and return on failure), perform
the handshake (log "tls error" and return on failure), and on success run the
HTTP codec with `requestCallback`, logging "async-h1 error" if the codec ends
in an error. The task returns nothing to the accept loop. -/
def handleTls (app : Server) (s : AcceptedStream) (_acceptor : SslAcceptor) :
    List HEvent :=
  match s.hs.sslNewErr with
  | some m => [HEvent.logError ("ssl error: " ++ m)]
  | none =>
    HEvent.handshakeAttempt ::
      match s.hs.handshakeErr with
      | some m => [HEvent.logError ("tls error: " ++ m)]
      | none =>
        (s.hs.requests.map
          (fun r => (requestCallback app s.localAddr s.peerAddr r).2)).flatten ++
          match s.hs.codecErr with
          | some m => [HEvent.logError ("async-h1 error: " ++ m)]
          | none => []

/-- The socket-option application of the accept loop's `Ok(stream)` branch
(`src/tls_listener.rs` lines 253-259): `set_nodelay` when `tcp_nodelay` is
configured, then `set_ttl` when `tcp_ttl` is configured, each propagating its
error with `?`. Returns the first error, or `none` when both succeed or are
skipped. -/
def applyOpts (l : TlsListener) (s : AcceptedStream) : Option IoError :=
  match l.tcp_nodelay, s.setNodelayErr with
  | some _, some e => some e
  | _, _ =>
    match l.tcp_ttl, s.setTtlErr with
    | some _, some e => some e
    | _, _ => none

/-- The log line of the accept loop's non-transient error branch
(`src/tls_listener.rs` line 247). -/
def acceptErrMsg (e : IoError) : String :=
  "Error: " ++ e.msg ++ ". Pausing for 500ms."

/-- The `while let` body of `TlsListener::accept` (`src/tls_listener.rs` lines
241-264) over a finite prefix of the incoming stream: transient errors are
skipped with no event, other errors log and sleep 500 ms then continue, and
each accepted stream has socket options applied (propagating a failure out of
the loop with `?`) before `handle_tls` spawns its handler task. An exhausted
stream ends the loop with `Ok(())`. -/
def processStream (l : TlsListener) (acc : SslAcceptor) (server : Server) :
    List (Except IoError AcceptedStream) → Except IoError Unit × List Event
  | [] => (.ok (), [])
  | .error e :: rest =>
    if is_transient_error e then processStream l acc server rest
    else
      let r := processStream l acc server rest
      (r.1, .logError (acceptErrMsg e) :: .sleepMs 500 :: r.2)
  | .ok s :: rest =>
    match applyOpts l s with
    | some e => (.error e, [])
    | none =>
      let r := processStream l acc server rest
      (r.1, .spawn (handleTls server s acc) :: r.2)

/-- The three startup checks at the head of `TlsListener::accept`
(`src/tls_listener.rs` lines 228-239): the bound TCP listener, the acceptor
and the server must all be present, each missing one failing with its own
`Other`-kind error. -/
def TlsListener.acceptChecks (l : TlsListener) :
    Except IoError (Nat × SslAcceptor × Server) :=
  match l.tcp with
  | none => .error ⟨.other, "accept - listener"⟩
  | some t =>
    match l.acceptor with
    | none => .error ⟨.other, "accept - acceptor"⟩
    | some a =>
      match l.server with
      | none => .error ⟨.other, "accept - server"⟩
      | some srv => .ok (t, a, srv)

/-- `TlsListener::accept` (`src/tls_listener.rs` lines 227-266) on a finite
prefix of the incoming stream: run the three startup checks, then the accept
loop. -/
def TlsListener.accept (l : TlsListener)
    (incoming : List (Except IoError AcceptedStream)) :
    Except IoError Unit × List Event :=
  match l.acceptChecks with
  | .error e => (.error e, [])
  | .ok (_, a, srv) => processStream l a srv incoming

/-- Number of handler tasks spawned in a trace. -/
def spawnCount (t : List Event) : Nat :=
  t.countP fun ev => match ev with | .spawn _ => true | _ => false

/-- Number of backoff sleeps in a trace. -/
def sleepCount (t : List Event) : Nat :=
  t.countP fun ev => match ev with | .sleepMs _ => true | _ => false

/-- Any `configure` call either takes the full success path of the `Paths`
branch — consuming a fresh build identity and storing the freshly built
acceptor — or returns an error leaving the environment, the listener and the
trace untouched. -/
theorem configure_cases (env : TlsEnv) (l : TlsListener) :
    (∃ cert key, l.config = .paths cert key ∧ env.baseOk = true ∧
      env.keyErr key = none ∧ env.certErr cert = none ∧
      l.configure env = ⟨{ env with nextId := env.nextId + 1 },
        { l with acceptor := some ⟨cert, key, env.nextId⟩ },
        .ok (), [.buildAcceptor env.nextId]⟩) ∨
    (∃ e, l.configure env = ⟨env, l, .error e, []⟩) := by
  obtain ⟨conn, cfg, acc, srv, nd, ttl⟩ := l
  cases cfg with
  | paths cert key =>
    by_cases hb : env.baseOk
    · cases hk : env.keyErr key with
      | some m => exact .inr ⟨⟨.other, m⟩, by simp [TlsListener.configure, hb, hk]⟩
      | none =>
        cases hcert : env.certErr cert with
        | some m =>
          exact .inr ⟨⟨.other, m⟩, by simp [TlsListener.configure, hb, hk, hcert]⟩
        | none =>
          exact .inl ⟨cert, key, rfl, hb, hk, hcert,
            by simp [TlsListener.configure, hb, hk, hcert]⟩
    · exact .inr ⟨⟨.other, "mozilla_modern_v5 failed"⟩,
        by simp [TlsListener.configure, hb]⟩
  | unconfigured =>
    exact .inr ⟨⟨.invalidInput, "need exactly one of cert + key"⟩, rfl⟩
  | acceptor a =>
    exact .inr ⟨⟨.invalidInput, "need exactly one of cert + key"⟩, rfl⟩

/-- Claim C10: configuration resolution is atomic on failure — whenever `configure`
returns an error, the whole listener (in particular its `acceptor` field) and
the environment are left exactly as they were, and no acceptor construction
was performed. -/
theorem configure_atomic_on_failure (env : TlsEnv) (l : TlsListener)
    (e : IoError) (h : (l.configure env).result = .error e) :
    l.configure env = ⟨env, l, .error e, []⟩ ∧
    (l.configure env).listener.acceptor = l.acceptor := by
  rcases configure_cases env l with ⟨cert, key, _, _, _, _, heq⟩ | ⟨e', heq⟩
  · rw [heq] at h; cases h
  · rw [heq] at h ⊢; cases h; exact ⟨rfl, rfl⟩

/-- Claim C10 witness: at a listener whose key file fails to load, `configure`
errors and leaves the listener untouched. -/
theorem configure_atomic_on_failure_witness :
    (⟨.addrs ["localhost:4433"], .paths "cert.pem" "key.pem",
        none, none, none, none⟩ : TlsListener).configure
        ⟨true, fun _ => some "bad key", fun _ => none, 0⟩ =
      ⟨⟨true, fun _ => some "bad key", fun _ => none, 0⟩,
        ⟨.addrs ["localhost:4433"], .paths "cert.pem" "key.pem",
          none, none, none, none⟩,
        .error ⟨.other, "bad key"⟩, []⟩ :=
  (configure_atomic_on_failure ⟨true, fun _ => some "bad key", fun _ => none, 0⟩
    ⟨.addrs ["localhost:4433"], .paths "cert.pem" "key.pem",
      none, none, none, none⟩ ⟨.other, "bad key"⟩ rfl).1

/-- Claim C8: the connection transitions only `Addrs` to `Connected`, never the
reverse; and `connect` on an already-`Connected` connection is a successful
no-op returning the listener unchanged with no events. -/
theorem connect_connected_noop (env : NetEnv) (l : TlsListener) :
    (∀ t, l.connection = .connected t → l.connect env = ⟨l, .ok (), []⟩) ∧
    ((l.connect env).listener.connection = l.connection ∨
      ∃ specs t, l.connection = .addrs specs ∧
        (l.connect env).listener.connection = .connected t) := by
  obtain ⟨conn, cfg, acc, srv, nd, ttl⟩ := l
  cases conn with
  | addrs specs =>
    refine ⟨(fun t ht => nomatch ht), ?_⟩
    cases hb : env.bindResult specs with
    | error e => left; simp [TlsListener.connect, hb]
    | ok t => right; exact ⟨specs, t, rfl, by simp [TlsListener.connect, hb]⟩
  | connected t =>
    exact ⟨fun t' ht => by simp [TlsListener.connect], .inl rfl⟩

/-- Claim C8 witness: a listener already connected on socket 7 is returned
unchanged by `connect`, successfully, with no bind event. -/
theorem connect_connected_noop_witness :
    (⟨.connected 7, .unconfigured, none, none, none, none⟩ : TlsListener).connect
        ⟨fun _ => .ok 0⟩ =
      ⟨⟨.connected 7, .unconfigured, none, none, none, none⟩, .ok (), []⟩ :=
  (connect_connected_noop ⟨fun _ => .ok 0⟩
    ⟨.connected 7, .unconfigured, none, none, none, none⟩).1 7 rfl

/-- Claim C1: counterexample — `configure` never resolves the config into an
`Acceptor` state (after a successful call the config is still `Paths`), and a
second call is not a side-effect-free no-op returning the cached acceptor: it
succeeds but performs a fresh acceptor construction (non-empty trace) and
replaces the stored acceptor with a different one. -/
theorem configure_not_idempotent_cex :
    let env : TlsEnv := ⟨true, fun _ => none, fun _ => none, 0⟩
    let l : TlsListener := ⟨.addrs ["localhost:4433"], .paths "cert.pem" "key.pem",
      none, none, none, none⟩
    let first := l.configure env
    let second := first.listener.configure first.env
    first.result = .ok () ∧
    first.listener.config = .paths "cert.pem" "key.pem" ∧
    first.listener.acceptor = some ⟨"cert.pem", "key.pem", 0⟩ ∧
    second.result = .ok () ∧
    second.trace = [.buildAcceptor 1] ∧
    second.listener.acceptor = some ⟨"cert.pem", "key.pem", 1⟩ ∧
    second.listener.acceptor ≠ first.listener.acceptor :=
  ⟨rfl, rfl, rfl, rfl, rfl, rfl, by decide⟩

/-- Claim C1 (amended): on a listener with a well-formed `Paths` configuration the
first `configure` succeeds and stores a freshly built acceptor, but the
config is never transitioned to an `Acceptor` state, so a second call is safe
and succeeds yet is not a no-op: it re-runs acceptor construction (emitting a
fresh build event) and replaces the stored acceptor with a new, distinct
one. -/
theorem configure_second_call_rebuilds (env : TlsEnv) (l : TlsListener)
    (cert key : String) (hc : l.config = .paths cert key)
    (hb : env.baseOk = true) (hk : env.keyErr key = none)
    (hcert : env.certErr cert = none) :
    let first := l.configure env
    let second := first.listener.configure first.env
    first.result = .ok () ∧
    first.listener.config = .paths cert key ∧
    first.listener.acceptor = some ⟨cert, key, env.nextId⟩ ∧
    second.result = .ok () ∧
    second.trace = [.buildAcceptor (env.nextId + 1)] ∧
    second.listener.acceptor = some ⟨cert, key, env.nextId + 1⟩ ∧
    second.listener.acceptor ≠ first.listener.acceptor := by
  obtain ⟨conn, cfg, acc, srv, nd, ttl⟩ := l
  cases hc
  refine ⟨?_, ?_, ?_, ?_, ?_, ?_, ?_⟩ <;>
    simp [TlsListener.configure, hb, hk, hcert]

/-- Claim C1 witness for the amended theorem, at a concrete listener and
environment. -/
theorem configure_second_call_rebuilds_witness :
    let env : TlsEnv := ⟨true, fun _ => none, fun _ => none, 5⟩
    let l : TlsListener := ⟨.connected 3, .paths "c.pem" "k.pem",
      none, none, none, none⟩
    let first := l.configure env
    let second := first.listener.configure first.env
    first.result = .ok () ∧
    first.listener.config = .paths "c.pem" "k.pem" ∧
    first.listener.acceptor = some ⟨"c.pem", "k.pem", 5⟩ ∧
    second.result = .ok () ∧
    second.trace = [.buildAcceptor 6] ∧
    second.listener.acceptor = some ⟨"c.pem", "k.pem", 6⟩ ∧
    second.listener.acceptor ≠ first.listener.acceptor :=
  configure_second_call_rebuilds ⟨true, fun _ => none, fun _ => none, 5⟩
    ⟨.connected 3, .paths "c.pem" "k.pem", none, none, none, none⟩
    "c.pem" "k.pem" rfl rfl rfl rfl

/-- Claim C7: counterexample — at a listener whose configuration was never supplied
(`unconfigured`), `configure` fails not with a dedicated `Unconfigured`
error but with the generic `InvalidInput` error "need exactly one of
cert + key", and that error is identical to the one returned when the
configuration is an already-constructed `Acceptor`, so the error does not
identify the unconfigured case. -/
theorem configure_unconfigured_error_cex :
    let env : TlsEnv := ⟨true, fun _ => none, fun _ => none, 0⟩
    let lU : TlsListener := ⟨.addrs ["a"], .unconfigured, none, none, none, none⟩
    let lA : TlsListener := ⟨.addrs ["a"], .acceptor ⟨"c", "k", 0⟩,
      none, none, none, none⟩
    (lU.configure env).result = .error ⟨.invalidInput, "need exactly one of cert + key"⟩ ∧
    (lU.configure env).result = (lA.configure env).result :=
  ⟨rfl, rfl⟩

/-- Claim C7 (amended): for every listener whose TLS configuration is not in the
`Paths` state — including the already-`Acceptor` state — `configure` fails
with the single generic `InvalidInput` error "need exactly one of cert +
key" (there is no dedicated `Unconfigured` error), leaving the listener
untouched; `bind` propagates that error and does not install the server, so
the listener never completes startup and never reaches the accept loop. -/
theorem configure_non_paths_fails (tenv : TlsEnv) (nenv : NetEnv)
    (srv : Server) (l : TlsListener)
    (h : ∀ cert key, l.config ≠ .paths cert key) :
    l.configure tenv =
      ⟨tenv, l, .error ⟨.invalidInput, "need exactly one of cert + key"⟩, []⟩ ∧
    (l.bind tenv nenv srv).result =
      .error ⟨.invalidInput, "need exactly one of cert + key"⟩ ∧
    (l.bind tenv nenv srv).listener = l := by
  obtain ⟨conn, cfg, acc, srv', nd, ttl⟩ := l
  cases cfg with
  | paths cert key => exact absurd rfl (h cert key)
  | unconfigured => exact ⟨rfl, rfl, rfl⟩
  | acceptor a => exact ⟨rfl, rfl, rfl⟩

/-- Claim C7 witness: at a concrete unconfigured listener, `configure` and `bind`
fail with the `InvalidInput` error and the listener is unchanged. -/
theorem configure_non_paths_fails_witness :
    (⟨.addrs ["b"], .unconfigured, none, none, none, none⟩ : TlsListener).configure
        ⟨true, fun _ => none, fun _ => none, 0⟩ =
      ⟨⟨true, fun _ => none, fun _ => none, 0⟩,
        ⟨.addrs ["b"], .unconfigured, none, none, none, none⟩,
        .error ⟨.invalidInput, "need exactly one of cert + key"⟩, []⟩ ∧
    ((⟨.addrs ["b"], .unconfigured, none, none, none, none⟩ : TlsListener).bind
        ⟨true, fun _ => none, fun _ => none, 0⟩ ⟨fun _ => .ok 0⟩
        ⟨fun _ => ⟨200⟩⟩).result =
      .error ⟨.invalidInput, "need exactly one of cert + key"⟩ ∧
    ((⟨.addrs ["b"], .unconfigured, none, none, none, none⟩ : TlsListener).bind
        ⟨true, fun _ => none, fun _ => none, 0⟩ ⟨fun _ => .ok 0⟩
        ⟨fun _ => ⟨200⟩⟩).listener =
      ⟨.addrs ["b"], .unconfigured, none, none, none, none⟩ :=
  configure_non_paths_fails ⟨true, fun _ => none, fun _ => none, 0⟩
    ⟨fun _ => .ok 0⟩ ⟨fun _ => ⟨200⟩⟩
    ⟨.addrs ["b"], .unconfigured, none, none, none, none⟩
    (fun _ _ hx => nomatch hx)

/-- A successful `connect` leaves every field but the connection unchanged
and leaves the connection `Connected` on some socket. -/
theorem connect_ok_connected (env : NetEnv) (l : TlsListener)
    (h : (l.connect env).result = .ok ()) :
    ∃ t, (l.connect env).listener = { l with connection := .connected t } := by
  obtain ⟨conn, cfg, acc, srv, nd, ttl⟩ := l
  cases conn with
  | addrs specs =>
    cases hb : env.bindResult specs with
    | error e => simp [TlsListener.connect, hb] at h
    | ok t => exact ⟨t, by simp [TlsListener.connect, hb]⟩
  | connected t => exact ⟨t, rfl⟩

/-- Claim C9: after a successful `bind`, the three startup checks at the head of
`accept` all pass — the connection is `Connected`, the acceptor and the
server are present — so `accept` can never fail with the "accept - listener",
"accept - acceptor" or "accept - server" errors: on every incoming sequence
it proceeds directly to the accept loop. -/
theorem bind_ok_accept_checks_pass (tenv : TlsEnv) (nenv : NetEnv)
    (srv : Server) (l : TlsListener)
    (h : (l.bind tenv nenv srv).result = .ok ()) :
    ∃ t a, ((l.bind tenv nenv srv).listener.tcp = some t ∧
      (l.bind tenv nenv srv).listener.acceptor = some a ∧
      (l.bind tenv nenv srv).listener.server = some srv) ∧
      (l.bind tenv nenv srv).listener.acceptChecks = .ok (t, a, srv) ∧
      ∀ incoming, (l.bind tenv nenv srv).listener.accept incoming =
        processStream (l.bind tenv nenv srv).listener a srv incoming := by
  rcases configure_cases tenv l with ⟨cert, key, hc, hb, hk, hcert, heq⟩ | ⟨e, heq⟩
  · unfold TlsListener.bind at h ⊢
    rw [heq] at h ⊢
    dsimp only at h ⊢
    cases h2 : (TlsListener.connect nenv { l with acceptor := some ⟨cert, key, tenv.nextId⟩ }).result with
    | error e2 => rw [h2] at h; simp at h
    | ok u =>
      dsimp only at h ⊢
      obtain ⟨t, hlc⟩ := connect_ok_connected nenv
        { l with acceptor := some ⟨cert, key, tenv.nextId⟩ } (by rw [h2])
      rw [hlc]
      exact ⟨t, ⟨cert, key, tenv.nextId⟩, ⟨rfl, rfl, rfl⟩, rfl, fun incoming => rfl⟩
  · exfalso
    unfold TlsListener.bind at h
    rw [heq] at h
    simp at h

/-- Claim C9 witness: a concrete listener that binds successfully passes all three
accept-time checks and runs the accept loop on every incoming sequence. -/
theorem bind_ok_accept_checks_pass_witness :
    ∃ t a, (((⟨.addrs ["w"], .paths "c" "k", none, none, none, none⟩ : TlsListener).bind
        ⟨true, fun _ => none, fun _ => none, 0⟩ ⟨fun _ => .ok 9⟩
        ⟨fun _ => ⟨200⟩⟩).listener.tcp = some t ∧
      ((⟨.addrs ["w"], .paths "c" "k", none, none, none, none⟩ : TlsListener).bind
        ⟨true, fun _ => none, fun _ => none, 0⟩ ⟨fun _ => .ok 9⟩
        ⟨fun _ => ⟨200⟩⟩).listener.acceptor = some a ∧
      ((⟨.addrs ["w"], .paths "c" "k", none, none, none, none⟩ : TlsListener).bind
        ⟨true, fun _ => none, fun _ => none, 0⟩ ⟨fun _ => .ok 9⟩
        ⟨fun _ => ⟨200⟩⟩).listener.server = some ⟨fun _ => ⟨200⟩⟩) ∧
      ((⟨.addrs ["w"], .paths "c" "k", none, none, none, none⟩ : TlsListener).bind
        ⟨true, fun _ => none, fun _ => none, 0⟩ ⟨fun _ => .ok 9⟩
        ⟨fun _ => ⟨200⟩⟩).listener.acceptChecks = .ok (t, a, ⟨fun _ => ⟨200⟩⟩) ∧
      ∀ incoming, (((⟨.addrs ["w"], .paths "c" "k", none, none, none, none⟩ : TlsListener).bind
        ⟨true, fun _ => none, fun _ => none, 0⟩ ⟨fun _ => .ok 9⟩
        ⟨fun _ => ⟨200⟩⟩).listener.accept incoming) =
        processStream ((⟨.addrs ["w"], .paths "c" "k", none, none, none, none⟩ : TlsListener).bind
          ⟨true, fun _ => none, fun _ => none, 0⟩ ⟨fun _ => .ok 9⟩
          ⟨fun _ => ⟨200⟩⟩).listener a ⟨fun _ => ⟨200⟩⟩ incoming :=
  bind_ok_accept_checks_pass ⟨true, fun _ => none, fun _ => none, 0⟩
    ⟨fun _ => .ok 9⟩ ⟨fun _ => ⟨200⟩⟩
    ⟨.addrs ["w"], .paths "c" "k", none, none, none, none⟩ rfl

/-- A prefix of transient accept errors is skipped by the loop with no
events: the loop behaves exactly as on the remaining results. -/
theorem processStream_transient_skip (l : TlsListener) (a : SslAcceptor)
    (srv : Server) (errs : List IoError)
    (hT : ∀ e ∈ errs, is_transient_error e = true)
    (rest : List (Except IoError AcceptedStream)) :
    processStream l a srv (errs.map .error ++ rest) =
      processStream l a srv rest := by
  induction errs with
  | nil => rfl
  | cons e tl ih =>
    simp only [List.map_cons, List.cons_append, processStream]
    rw [if_pos (hT e (List.mem_cons_self e tl))]
    exact ih fun e' h' => hT e' (List.mem_cons_of_mem _ h')

/-- If socket-option application succeeds on every accepted stream of the
input, the loop consumes the whole input and ends with `Ok(())`: no accept
`Err` result ever terminates it. -/
theorem processStream_ok_of_opts_clean (l : TlsListener) (a : SslAcceptor)
    (srv : Server) (incoming : List (Except IoError AcceptedStream))
    (hok : ∀ s, .ok s ∈ incoming → applyOpts l s = none) :
    (processStream l a srv incoming).1 = .ok () := by
  induction incoming with
  | nil => rfl
  | cons hd tl ih =>
    have ih' := ih fun s hs => hok s (List.mem_cons_of_mem _ hs)
    cases hd with
    | error e =>
      by_cases ht : is_transient_error e = true
      · simpa [processStream, ht] using ih'
      · simpa [processStream, ht] using ih'
    | ok s =>
      have hs := hok s (List.mem_cons_self _ _)
      simpa [processStream, hs] using ih'

/-- Claim C2: counterexample — on a listener that passed all startup checks (so no
internal invariant is violated), a single successfully accepted connection
whose `set_nodelay` call fails makes `accept` return that socket-option
error, terminating the loop: accept-time errors other than invariant
violations can end the loop. -/
theorem accept_sockopt_error_terminates_cex :
    let l : TlsListener := ⟨.connected 0, .paths "c" "k",
      some ⟨"c", "k", 0⟩, some ⟨fun _ => ⟨200⟩⟩, some true, none⟩
    let s : AcceptedStream := ⟨none, none, some ⟨.other, "setsockopt failed"⟩,
      none, ⟨none, none, [], none⟩⟩
    l.acceptChecks = .ok (0, ⟨"c", "k", 0⟩, ⟨fun _ => ⟨200⟩⟩) ∧
    l.accept [.ok s] = (.error ⟨.other, "setsockopt failed"⟩, []) ∧
    is_transient_error ⟨.other, "setsockopt failed"⟩ = false :=
  ⟨rfl, rfl, rfl⟩

/-- An error coming out of the accept loop body can only be a socket-option
application failure on some accepted stream of the input. -/
theorem processStream_error_from_opts (l : TlsListener) (a : SslAcceptor)
    (srv : Server) (incoming : List (Except IoError AcceptedStream))
    (e : IoError) (h : (processStream l a srv incoming).1 = .error e) :
    ∃ s, .ok s ∈ incoming ∧ applyOpts l s = some e := by
  induction incoming with
  | nil => exact absurd h (by simp [processStream])
  | cons hd tl ih =>
    cases hd with
    | error e2 =>
      by_cases ht : is_transient_error e2 = true
      · rw [show (processStream l a srv (.error e2 :: tl)).1 =
            (processStream l a srv tl).1 by simp [processStream, ht]] at h
        obtain ⟨s, hs, ho⟩ := ih h
        exact ⟨s, List.mem_cons_of_mem _ hs, ho⟩
      · rw [show (processStream l a srv (.error e2 :: tl)).1 =
            (processStream l a srv tl).1 by simp [processStream, ht]] at h
        obtain ⟨s, hs, ho⟩ := ih h
        exact ⟨s, List.mem_cons_of_mem _ hs, ho⟩
    | ok s2 =>
      cases h2 : applyOpts l s2 with
      | some e2 =>
        have he : e2 = e := by simpa [processStream, h2] using h
        exact ⟨s2, List.mem_cons_self _ _, he ▸ h2⟩
      | none =>
        rw [show (processStream l a srv (.ok s2 :: tl)).1 =
            (processStream l a srv tl).1 by simp [processStream, h2]] at h
        obtain ⟨s, hs, ho⟩ := ih h
        exact ⟨s, List.mem_cons_of_mem _ hs, ho⟩

/-- Claim C2 (amended): the accept loop never terminates because of an accept
`Err` result. For every sequence of accept results: if the startup checks
pass and socket-option application succeeds on every accepted connection,
`accept` consumes the whole sequence and returns `Ok(())`; conversely, the
only ways `accept` returns an error are a failing startup check (the
internal-invariant errors) or a failing `set_nodelay`/`set_ttl` call on an
accepted connection, whose error propagates out of the loop. -/
theorem accept_survives_stream_errors (l : TlsListener)
    (incoming : List (Except IoError AcceptedStream)) :
    ((∃ x, l.acceptChecks = .ok x) →
      (∀ s, .ok s ∈ incoming → applyOpts l s = none) →
      (l.accept incoming).1 = .ok ()) ∧
    (∀ e, (l.accept incoming).1 = .error e →
      l.acceptChecks = .error e ∨
        ∃ s, .ok s ∈ incoming ∧ applyOpts l s = some e) := by
  constructor
  · rintro ⟨⟨t, a, srv⟩, hch⟩ hok
    unfold TlsListener.accept
    rw [hch]
    exact processStream_ok_of_opts_clean l a srv incoming hok
  · intro e he
    unfold TlsListener.accept at he
    cases hch : l.acceptChecks with
    | error e2 =>
      rw [hch] at he
      left
      cases he
      rfl
    | ok x =>
      obtain ⟨t, a, srv⟩ := x
      rw [hch] at he
      exact .inr (processStream_error_from_opts l a srv incoming e he)

/-- Claim C2 witness: a configured listener survives a non-transient accept
error followed by a clean connection. -/
theorem accept_survives_stream_errors_witness :
    ((⟨.connected 0, .paths "c" "k", some ⟨"c", "k", 0⟩,
        some ⟨fun _ => ⟨200⟩⟩, none, none⟩ : TlsListener).accept
      [.error ⟨.other, "boom"⟩,
        .ok ⟨none, none, none, none, ⟨none, none, [], none⟩⟩]).1 = .ok () :=
  (accept_survives_stream_errors
    ⟨.connected 0, .paths "c" "k", some ⟨"c", "k", 0⟩,
      some ⟨fun _ => ⟨200⟩⟩, none, none⟩
    [.error ⟨.other, "boom"⟩,
      .ok ⟨none, none, none, none, ⟨none, none, [], none⟩⟩]).1
    ⟨(0, ⟨"c", "k", 0⟩, ⟨fun _ => ⟨200⟩⟩), rfl⟩
    (by
      intro s hs
      simp only [List.mem_cons, List.not_mem_nil, or_false] at hs
      rcases hs with hs | hs
      · exact absurd hs (by simp)
      · cases hs; rfl)

/-- Claim C3: for every sequence of N transient accept errors followed by one
successfully accepted connection (whose socket-option application succeeds),
the accept loop spawns exactly one connection-handler task and performs zero
backoff sleeps: transient errors are retried immediately. -/
theorem accept_transient_then_success (l : TlsListener)
    (x : Nat × SslAcceptor × Server) (hch : l.acceptChecks = .ok x)
    (errs : List IoError) (hT : ∀ e ∈ errs, is_transient_error e = true)
    (s : AcceptedStream) (hOpt : applyOpts l s = none) :
    (l.accept (errs.map .error ++ [.ok s])).1 = .ok () ∧
    spawnCount (l.accept (errs.map .error ++ [.ok s])).2 = 1 ∧
    sleepCount (l.accept (errs.map .error ++ [.ok s])).2 = 0 := by
  obtain ⟨t, a, srv⟩ := x
  have hrw : l.accept (errs.map .error ++ [.ok s]) =
      (.ok (), [.spawn (handleTls srv s a)]) := by
    unfold TlsListener.accept
    rw [hch]
    dsimp only
    rw [processStream_transient_skip l a srv errs hT]
    simp [processStream, hOpt]
  rw [hrw]
  exact ⟨rfl, rfl, rfl⟩

/-- Claim C3 witness: two transient errors (reset, refused) then one clean
connection yield a successful loop with one spawn and zero sleeps. -/
theorem accept_transient_then_success_witness :
    let l : TlsListener := ⟨.connected 0, .paths "c" "k", some ⟨"c", "k", 0⟩,
      some ⟨fun _ => ⟨200⟩⟩, none, none⟩
    let incoming := ([⟨.connectionReset, "r"⟩, ⟨.connectionRefused, "r"⟩] :
        List IoError).map .error ++
      [.ok ⟨none, none, none, none, ⟨none, none, [], none⟩⟩]
    (l.accept incoming).1 = .ok () ∧
    spawnCount (l.accept incoming).2 = 1 ∧
    sleepCount (l.accept incoming).2 = 0 :=
  accept_transient_then_success
    ⟨.connected 0, .paths "c" "k", some ⟨"c", "k", 0⟩,
      some ⟨fun _ => ⟨200⟩⟩, none, none⟩
    (0, ⟨"c", "k", 0⟩, ⟨fun _ => ⟨200⟩⟩) rfl
    [⟨.connectionReset, "r"⟩, ⟨.connectionRefused, "r"⟩] (by decide)
    ⟨none, none, none, none, ⟨none, none, [], none⟩⟩ rfl

/-- Claim C4: on a non-transient accept error the loop logs the error, sleeps the
fixed 500 ms backoff, and then continues exactly as on the remaining accept
results — in particular it does not terminate because of that error. -/
theorem accept_nontransient_backoff (l : TlsListener)
    (x : Nat × SslAcceptor × Server) (hch : l.acceptChecks = .ok x)
    (e : IoError) (hnt : is_transient_error e = false)
    (rest : List (Except IoError AcceptedStream)) :
    (l.accept (.error e :: rest)).1 = (l.accept rest).1 ∧
    (l.accept (.error e :: rest)).2 =
      .logError (acceptErrMsg e) :: .sleepMs 500 :: (l.accept rest).2 := by
  obtain ⟨t, a, srv⟩ := x
  unfold TlsListener.accept
  rw [hch]
  simp [processStream, hnt]

/-- Claim C4 witness: a concrete non-transient error is logged, backed off 500 ms,
and the loop then ends normally on the empty remainder. -/
theorem accept_nontransient_backoff_witness :
    let l : TlsListener := ⟨.connected 0, .paths "c" "k", some ⟨"c", "k", 0⟩,
      some ⟨fun _ => ⟨200⟩⟩, none, none⟩
    (l.accept [.error ⟨.other, "emfile"⟩]).1 = (l.accept []).1 ∧
    (l.accept [.error ⟨.other, "emfile"⟩]).2 =
      .logError (acceptErrMsg ⟨.other, "emfile"⟩) :: .sleepMs 500 ::
        (l.accept []).2 :=
  accept_nontransient_backoff
    ⟨.connected 0, .paths "c" "k", some ⟨"c", "k", 0⟩,
      some ⟨fun _ => ⟨200⟩⟩, none, none⟩
    (0, ⟨"c", "k", 0⟩, ⟨fun _ => ⟨200⟩⟩) rfl ⟨.other, "emfile"⟩ rfl []

/-- The `Except` result of the accept loop does not depend on what happens
inside any spawned handler: replacing the handshake-side data of any accepted
stream leaves the loop's result unchanged. -/
theorem processStream_result_hs_indep (l : TlsListener) (a : SslAcceptor)
    (srv : Server) (pre : List (Except IoError AcceptedStream))
    (s : AcceptedStream) (h' : HandshakeData)
    (post : List (Except IoError AcceptedStream)) :
    (processStream l a srv (pre ++ .ok { s with hs := h' } :: post)).1 =
    (processStream l a srv (pre ++ .ok s :: post)).1 := by
  induction pre with
  | nil =>
    simp only [List.nil_append, processStream]
    rw [show applyOpts l { s with hs := h' } = applyOpts l s from rfl]
    cases applyOpts l s <;> simp
  | cons hd tl ih =>
    cases hd with
    | error e =>
      by_cases ht : is_transient_error e = true <;>
        simp [processStream, ht, ih]
    | ok s2 =>
      cases h2 : applyOpts l s2 <;> simp [processStream, h2, ih]

/-- Claim C5: when SSL-session construction or the TLS handshake fails on an
accepted connection, the spawned handler's whole trace is a single error log
(preceded by the one handshake attempt in the handshake-failure case) — it
terminates right after logging, with no retry and no dispatch — and the
handler's outcome never reaches the accept loop: the loop's result is
identical whatever the handshake-side data of the accepted stream is. -/
theorem handshake_failure_isolated (app : Server) (acc : SslAcceptor)
    (s : AcceptedStream) :
    (∀ m, s.hs.sslNewErr = some m →
      handleTls app s acc = [.logError ("ssl error: " ++ m)]) ∧
    (∀ m, s.hs.sslNewErr = none → s.hs.handshakeErr = some m →
      handleTls app s acc = [.handshakeAttempt, .logError ("tls error: " ++ m)]) ∧
    ∀ (l : TlsListener) (pre post : List (Except IoError AcceptedStream))
      (h' : HandshakeData),
      (l.accept (pre ++ .ok { s with hs := h' } :: post)).1 =
      (l.accept (pre ++ .ok s :: post)).1 := by
  refine ⟨?_, ?_, ?_⟩
  · intro m hm; simp [handleTls, hm]
  · intro m hm hh; simp [handleTls, hm, hh]
  · intro l pre post h'
    unfold TlsListener.accept
    cases l.acceptChecks with
    | error e => rfl
    | ok x =>
      obtain ⟨t, a, srv⟩ := x
      exact processStream_result_hs_indep l a srv pre s h' post

/-- Claim C5 witness: a stream whose handshake fails with "bad" yields exactly one
attempt followed by the error log, and swapping its handshake data for a
clean one leaves the accept loop's result unchanged. -/
theorem handshake_failure_isolated_witness :
    handleTls ⟨fun _ => ⟨200⟩⟩
        ⟨none, none, none, none, ⟨none, some "bad", [], none⟩⟩ ⟨"c", "k", 0⟩ =
      [.handshakeAttempt, .logError ("tls error: " ++ "bad")] ∧
    ((⟨.connected 0, .paths "c" "k", some ⟨"c", "k", 0⟩,
        some ⟨fun _ => ⟨200⟩⟩, none, none⟩ : TlsListener).accept
      ([] ++ .ok { (⟨none, none, none, none, ⟨none, some "bad", [], none⟩⟩ :
          AcceptedStream) with hs := ⟨none, none, [], none⟩ } :: [])).1 =
    ((⟨.connected 0, .paths "c" "k", some ⟨"c", "k", 0⟩,
        some ⟨fun _ => ⟨200⟩⟩, none, none⟩ : TlsListener).accept
      ([] ++ .ok ⟨none, none, none, none, ⟨none, some "bad", [], none⟩⟩ :: [])).1 :=
  ⟨(handshake_failure_isolated ⟨fun _ => ⟨200⟩⟩ ⟨"c", "k", 0⟩
      ⟨none, none, none, none, ⟨none, some "bad", [], none⟩⟩).2.1 "bad" rfl rfl,
    (handshake_failure_isolated ⟨fun _ => ⟨200⟩⟩ ⟨"c", "k", 0⟩
      ⟨none, none, none, none, ⟨none, some "bad", [], none⟩⟩).2.2
      ⟨.connected 0, .paths "c" "k", some ⟨"c", "k", 0⟩,
        some ⟨fun _ => ⟨200⟩⟩, none, none⟩ [] [] ⟨none, none, [], none⟩⟩

/-- Claim C6: for every request parsed on a handshaken connection, the per-request
callback returns exactly the application dispatcher's response on a request
carrying the accept-time local and peer addresses, with the scheme forced to
"https" when settable; when the scheme cannot be set the callback logs and
still returns the dispatcher's response on the otherwise-annotated request. -/
theorem requestCallback_annotates (app : Server)
    (localAddr peerAddr : Option String) (req : Request) :
    ∃ req2, requestCallback app localAddr peerAddr req =
        (app.respond req2,
          if req.schemeSettable then ([] : List HEvent)
          else [.logError ("unable to set https scheme on url: " ++ req.url)]) ∧
      req2.localAddr = localAddr ∧ req2.peerAddr = peerAddr ∧
      req2.scheme = (if req.schemeSettable then "https" else req.scheme) ∧
      req2.url = req.url := by
  cases h : req.schemeSettable with
  | false =>
    exact ⟨{ req with localAddr := localAddr, peerAddr := peerAddr },
      by simp [requestCallback, h], rfl, rfl, by simp [h], rfl⟩
  | true =>
    exact ⟨{ req with scheme := "https", localAddr := localAddr, peerAddr := peerAddr },
      by simp [requestCallback, h], rfl, rfl, by simp [h], rfl⟩

end TideOpenssl
